import Mathlib

/-!
Shallow embedding of the Auto-CRM robot telemetry backend.

Source files embedded here:
  * backend/simulator/robot_simulator.py  (class RobotSimulator)
  * backend/app.py                        (check_alerts, telemetry_generator,
                                           create_app / run_app thread startup)
  * backend/websocket/socket_handler.py   (broadcast_telemetry, broadcast_alert)
  * backend/services/telemetry_service.py (TelemetryService.execute_command)

Python's `random` draws are modelled as explicit oracle inputs: each call
site receives its drawn value through a `Rand` record.  `random.uniform a b`
is modelled from a unit draw `u` as `a + u * (b - a)`; `random.randint a b`
from a natural draw `k` as `a + k % (b - a + 1)` (always inside `[a, b]`).
Floats are modelled as rationals; Python `int(x)` truncates toward zero;
Python `round(x, 1)` rounds to the nearest tenth (tie behaviour at exact
midpoints is immaterial to every property proved here).  The wall-clock
`timestamp` field of a sample is outside the embedding (no claim touches it).
-/

namespace AutoCRM

/-- Operating mode, the `_current_status` field: idle, working or error. -/
inductive Mode
  | idle
  | working
  | error
deriving DecidableEq, Repr

/-- The simulator's mutable state: `_running`, `_current_status`,
`_battery_level` (a float in the source, a rational here). -/
structure RobotState where
  running : Bool
  status : Mode
  battery : ℚ
deriving DecidableEq, Repr

/-- Result dictionary of a command: `success` and `message` keys. -/
structure CmdResult where
  success : Bool
  message : String
deriving DecidableEq, Repr

/-- `random.randint a b` with the draw `k` supplied by the oracle. -/
def randint (a b k : ℕ) : ℕ := a + k % (b - a + 1)

/-- `random.uniform a b` with the unit draw `u` supplied by the oracle. -/
def uniform (a b u : ℚ) : ℚ := a + u * (b - a)

/-- Python `int(x)`: truncation toward zero. -/
def pyInt (q : ℚ) : ℤ := if 0 ≤ q then ⌊q⌋ else ⌈q⌉

/-- Python `round(x, 1)`: round to the nearest tenth (the tie-breaking
behaviour at exact midpoints is irrelevant to every property proved below,
as all range endpoints are whole tenths). -/
def round1 (q : ℚ) : ℚ := ((⌊q * 10 + 1 / 2⌋ : ℤ) : ℚ) / 10

/-- `STATUS_CHOICES = ['idle', 'working', 'working', 'working', 'error']`. -/
def STATUS_CHOICES : List Mode := [.idle, .working, .working, .working, .error]

/-- The random draws consumed by one `generate_telemetry` call, in source
order: the temperature uniform, the battery-drain uniform, the RPM randint,
the drift coin `random.random()`, the `random.choice` index, and the
low-battery error coin `random.random()`. -/
structure Rand where
  tempU : ℚ
  drainU : ℚ
  rpmK : ℕ
  driftU : ℚ
  driftChoice : ℕ
  errU : ℚ
deriving DecidableEq, Repr

/-- The draws a real `random` module can produce: every unit draw lies in
`[0, 1]`. -/
def Rand.Valid (r : Rand) : Prop :=
  0 ≤ r.tempU ∧ r.tempU ≤ 1 ∧ 0 ≤ r.drainU ∧ r.drainU ≤ 1 ∧
    0 ≤ r.driftU ∧ r.driftU ≤ 1 ∧ 0 ≤ r.errU ∧ r.errU ≤ 1

instance (r : Rand) : Decidable r.Valid := by
  unfold Rand.Valid; infer_instance

namespace RobotSimulator

/-- Class constants of `RobotSimulator`. -/
def TEMP_MIN : ℚ := 35
def TEMP_MAX : ℚ := 55
def BATTERY_MIN : ℚ := 20
def RPM_MIN : ℕ := 800
def RPM_MAX : ℕ := 1800

/-- `__init__`: running, idle, battery `random.randint(70, 100)`. -/
def init (k : ℕ) : RobotState :=
  { running := true, status := .idle, battery := (randint 70 100 k : ℚ) }

/-- `start()`. -/
def start (s : RobotState) : RobotState × CmdResult :=
  ({ s with running := true, status := .working }, ⟨true, "Robot started"⟩)

/-- `stop()`. -/
def stop (s : RobotState) : RobotState × CmdResult :=
  ({ s with running := false, status := .idle }, ⟨true, "Robot stopped"⟩)

/-- `reset()`: running, idle, battery `random.randint(70, 100)`. -/
def reset (_s : RobotState) (k : ℕ) : RobotState × CmdResult :=
  ({ running := true, status := .idle, battery := (randint 70 100 k : ℚ) },
   ⟨true, "Robot reset"⟩)

/-- One generated telemetry record (the returned dict, minus the wall-clock
`timestamp`). -/
structure Sample where
  temperature : ℚ
  battery : ℤ
  motor_rpm : ℕ
  status : Mode
deriving DecidableEq, Repr

/-- `generate_telemetry()`: temperature from the pre-call mode, battery
drain (floored at `BATTERY_MIN`) only while running and working, RPM from
the pre-call mode, then the two probabilistic status updates, and finally
the dict is built from the *post*-update `_current_status`. -/
def generate_telemetry (s : RobotState) (r : Rand) : RobotState × Sample :=
  let temperature : ℚ :=
    match s.status with
    | .working => uniform 40 TEMP_MAX r.tempU
    | .error => uniform 50 60 r.tempU
    | .idle => uniform TEMP_MIN 42 r.tempU
  let battery1 : ℚ :=
    if s.running && (s.status == .working) then
      max BATTERY_MIN (s.battery - uniform 0 (1/2) r.drainU)
    else s.battery
  let battery : ℤ := pyInt battery1
  let motor_rpm : ℕ :=
    match s.status with
    | .working => randint 1200 RPM_MAX r.rpmK
    | .error => randint 0 500 r.rpmK
    | .idle => randint RPM_MIN 1000 r.rpmK
  let status1 : Mode :=
    if s.running && decide (r.driftU < 1/10) then
      STATUS_CHOICES.getD (r.driftChoice % 5) .working
    else s.status
  let status2 : Mode :=
    if decide (battery < 30) && decide (r.errU < 3/10) then .error else status1
  ({ running := s.running, status := status2, battery := battery1 },
   { temperature := round1 temperature, battery := battery,
     motor_rpm := motor_rpm, status := status2 })

/-- `execute_command(command)`: dictionary dispatch over the three known
commands; anything else returns a failure dict without touching state. -/
def execute_command (s : RobotState) (command : String) (k : ℕ) :
    RobotState × CmdResult :=
  if command = "start" then start s
  else if command = "stop" then stop s
  else if command = "reset" then reset s k
  else (s, ⟨false, "Unknown command: " ++ command⟩)

end RobotSimulator

namespace TelemetryService

/-- `valid_commands = ['start', 'stop', 'reset']`. -/
def valid_commands : List String := ["start", "stop", "reset"]

/-- `TelemetryService.execute_command`: validates against `valid_commands`
before reaching the simulator (the database command log is outside the
embedded state). -/
def execute_command (s : RobotState) (command : String) (k : ℕ) :
    RobotState × CmdResult :=
  if command ∈ valid_commands then
    RobotSimulator.execute_command s command k
  else
    (s, ⟨false,
      "Invalid command. Valid commands: " ++
        String.intercalate (", ") valid_commands⟩)

end TelemetryService

open RobotSimulator (Sample)

/-! ### Alert evaluator (`check_alerts` in backend/app.py) -/

/-- The `type` key of an alert dict. -/
inductive Severity
  | warning
  | critical
deriving DecidableEq, Repr

/-- The `category` key of an alert dict. -/
inductive Category
  | temperature
  | battery
  | status
deriving DecidableEq, Repr

/-- A JSON value placed in an alert's `value` key: a number for the
temperature/battery alerts, the string value for the status alert. -/
inductive JVal
  | num (q : ℚ)
  | str (s : String)
deriving DecidableEq, Repr

/-- One alert dict.  An `Option` field set to `none` models a key that the
source omits from the dict. -/
structure Alert where
  type : Severity
  category : Category
  message : String
  threshold : Option ℚ
  value : Option JVal
deriving DecidableEq, Repr

/-- `check_alerts(telemetry_data)` from backend/app.py, transcribed append
by append.  The generated dict always carries the `temperature`, `battery`
and `status` keys, so the `.get` defaults of the source never fire. -/
def check_alerts (telemetry_data : Sample) : List Alert :=
  let alerts : List Alert := []
  let alerts :=
    if 50 < telemetry_data.temperature then
      alerts ++ [⟨.warning, .temperature,
        "High temperature: " ++ toString telemetry_data.temperature ++ "°C",
        some 50, some (.num telemetry_data.temperature)⟩]
    else alerts
  let alerts :=
    if 55 < telemetry_data.temperature then
      alerts ++ [⟨.critical, .temperature,
        "Critical temperature: " ++ toString telemetry_data.temperature ++ "°C",
        some 55, some (.num telemetry_data.temperature)⟩]
    else alerts
  let alerts :=
    if telemetry_data.battery < 20 then
      alerts ++ [⟨.warning, .battery,
        "Low battery: " ++ toString telemetry_data.battery ++ "%",
        some 20, some (.num (telemetry_data.battery : ℚ))⟩]
    else alerts
  let alerts :=
    if telemetry_data.battery < 10 then
      alerts ++ [⟨.critical, .battery,
        "Critical battery: " ++ toString telemetry_data.battery ++ "%",
        some 10, some (.num (telemetry_data.battery : ℚ))⟩]
    else alerts
  let alerts :=
    if telemetry_data.status = .error then
      alerts ++ [⟨.critical, .status, "Robot in ERROR state",
        none, some (.str ("error"))⟩]
    else alerts
  alerts

/-! ### Broadcast hub (backend/websocket/socket_handler.py) -/

/-- The socket server's delivery-relevant state: the module-level
`connected_clients` set and Socket.IO's room membership (`join_room`). -/
structure Hub where
  connected_clients : List ℕ
  rooms : List (ℕ × String)
deriving Repr

/-- The clients Socket.IO holds in a room. -/
def subscribersOf (h : Hub) (channel : String) : List ℕ :=
  (h.rooms.filter (fun m => m.2 == channel)).map (fun m => m.1)

/-- One `socketio.emit` call's audience: a named room, or every connected
client. -/
inductive EmitTarget
  | room (name : String)
  | all
deriving DecidableEq, Repr

/-- The clients an emit reaches. -/
def targetRecipients (h : Hub) : EmitTarget → List ℕ
  | .room name => subscribersOf h name
  | .all => h.connected_clients

/-- `broadcast_telemetry`: guarded by `if connected_clients:`, then one emit
to the `telemetry` room and one emit to all clients. -/
def broadcast_telemetry (h : Hub) : List EmitTarget :=
  if h.connected_clients = [] then []
  else [.room ("telemetry"), .all]

/-- `broadcast_alert`: one unconditional emit to all clients. -/
def broadcast_alert (_h : Hub) : List EmitTarget := [.all]

/-- Every client reached by one `broadcast_telemetry` call (room delivery
and global delivery concatenated). -/
def telemetryRecipients (h : Hub) : List ℕ :=
  ((broadcast_telemetry h).map (targetRecipients h)).flatten

/-- Every client reached by one `broadcast_alert` call. -/
def alertRecipients (h : Hub) : List ℕ :=
  ((broadcast_alert h).map (targetRecipients h)).flatten

/-! ### Generation loop (`telemetry_generator` in backend/app.py) -/

/-- What one loop iteration produces.  The `try` body either yields the
generated-and-saved sample with its alerts, or raises; the `except` arm
logs the error and falls through to the sleep. -/
inductive TickResult
  | generated (sample : Sample) (alerts : List Alert)
  | error_logged (msg : String)
deriving DecidableEq, Repr

/-- One iteration of the `while True` body.  The outcome of
`generate_and_save_telemetry` (and of the broadcasts, which share the same
`try`) is supplied as an `Except` oracle: `.error` is a raised exception. -/
def telemetry_generator_tick : Except String Sample → TickResult
  | .ok data => .generated data (check_alerts data)
  | .error e => .error_logged e

/-- The loop run over a finite prefix of tick outcomes: every tick is
processed, none aborts the loop. -/
def telemetry_generator_run : List (Except String Sample) → List TickResult
  | [] => []
  | t :: ts => telemetry_generator_tick t :: telemetry_generator_run ts

/-! ### Background thread startup (backend/app.py) -/

/-- One `threading.Thread(target=..., daemon=...)` started by app setup. -/
structure ThreadSpec where
  target : String
  daemon : Bool
deriving DecidableEq, Repr

/-- `create_app` unconditionally constructs and starts one daemon thread
running `telemetry_generator` (app.py lines 72-78). -/
def create_app_background_threads : List ThreadSpec :=
  [⟨"telemetry_generator", true⟩]

/-- `run_app` calls `create_app` (inheriting its thread) and then starts a
second daemon thread running `telemetry_generator` (app.py lines 169-174). -/
def run_app_background_threads : List ThreadSpec :=
  create_app_background_threads ++ [⟨"telemetry_generator", true⟩]

/-! ### Operation sequences and reachable simulator states -/

/-- One externally triggerable operation on the shared simulator: the three
commands and a generation tick. -/
inductive Op
  | start
  | stop
  | reset (k : ℕ)
  | gen (r : Rand)

/-- The state after one operation. -/
def applyOp (s : RobotState) : Op → RobotState
  | .start => (RobotSimulator.start s).1
  | .stop => (RobotSimulator.stop s).1
  | .reset k => (RobotSimulator.reset s k).1
  | .gen r => (RobotSimulator.generate_telemetry s r).1

/-- The state after a sequence of operations. -/
def runOps (s : RobotState) : List Op → RobotState
  | [] => s
  | op :: ops => runOps (applyOp s op) ops

/-- An operation whose random draws a real `random` module can produce. -/
def Op.Valid : Op → Prop
  | .gen r => r.Valid
  | _ => True

/-- A sequence of producible operations. -/
def ValidOps (ops : List Op) : Prop := ∀ op ∈ ops, op.Valid

/-- The declared temperature range for a mode: idle `[35, 42]`, working
`[40, 55]`, error `[50, 60]`. -/
def tempRange (m : Mode) (t : ℚ) : Prop :=
  match m with
  | .idle => 35 ≤ t ∧ t ≤ 42
  | .working => 40 ≤ t ∧ t ≤ 55
  | .error => 50 ≤ t ∧ t ≤ 60

instance (m : Mode) (t : ℚ) : Decidable (tempRange m t) := by
  unfold tempRange; cases m <;> infer_instance

instance (op : Op) : Decidable op.Valid := by
  unfold Op.Valid; cases op <;> infer_instance

instance (ops : List Op) : Decidable (ValidOps ops) := by
  unfold ValidOps; infer_instance

/-! ### Arithmetic facts about the modelled random primitives -/

theorem le_randint (a b k : ℕ) : a ≤ randint a b k :=
  Nat.le_add_right a (k % (b - a + 1))

theorem randint_le {a b : ℕ} (k : ℕ) (h : a ≤ b) : randint a b k ≤ b := by
  unfold randint
  have h1 : k % (b - a + 1) < b - a + 1 := Nat.mod_lt k (Nat.succ_pos _)
  omega

theorem le_uniform {a b u : ℚ} (h : a ≤ b) (h0 : 0 ≤ u) : a ≤ uniform a b u := by
  unfold uniform
  nlinarith

theorem uniform_le {a b u : ℚ} (h : a ≤ b) (_h0 : 0 ≤ u) (h1 : u ≤ 1) :
    uniform a b u ≤ b := by
  unfold uniform
  nlinarith

theorem le_round1 {n : ℤ} {q : ℚ} (h : (n : ℚ) ≤ q) : (n : ℚ) ≤ round1 q := by
  unfold round1
  rw [le_div_iff₀ (by norm_num : (0:ℚ) < 10)]
  have h2 : n * 10 ≤ ⌊q * 10 + 1 / 2⌋ := by
    refine Int.le_floor.mpr ?_
    push_cast
    linarith
  calc (n : ℚ) * 10 = ((n * 10 : ℤ) : ℚ) := by push_cast; ring
    _ ≤ ((⌊q * 10 + 1 / 2⌋ : ℤ) : ℚ) := by exact_mod_cast h2

theorem round1_le {n : ℤ} {q : ℚ} (h : q ≤ (n : ℚ)) : round1 q ≤ (n : ℚ) := by
  unfold round1
  rw [div_le_iff₀ (by norm_num : (0:ℚ) < 10)]
  have h2 : ⌊q * 10 + 1 / 2⌋ ≤ n * 10 := by
    have h3 : ⌊q * 10 + 1 / 2⌋ < n * 10 + 1 := by
      refine Int.floor_lt.mpr ?_
      push_cast
      linarith
    omega
  calc ((⌊q * 10 + 1 / 2⌋ : ℤ) : ℚ) ≤ ((n * 10 : ℤ) : ℚ) := by exact_mod_cast h2
    _ = (n : ℚ) * 10 := by push_cast; ring

theorem le_pyInt {n : ℤ} {q : ℚ} (h : (n : ℚ) ≤ q) (h0 : 0 ≤ n) : n ≤ pyInt q := by
  unfold pyInt
  rw [if_pos (le_trans (by exact_mod_cast h0) h)]
  exact Int.le_floor.mpr h

theorem pyInt_le {n : ℤ} {q : ℚ} (h : q ≤ (n : ℚ)) : pyInt q ≤ n := by
  unfold pyInt
  split
  · exact_mod_cast le_trans (Int.floor_le q) h
  · exact Int.ceil_le.mpr h

/-! ### The battery invariant of reachable simulator states -/

/-- `_battery_level` stays between the `BATTERY_MIN` floor and 100. -/
def BatteryInv (s : RobotState) : Prop := 20 ≤ s.battery ∧ s.battery ≤ 100

theorem batteryInv_init (k : ℕ) : BatteryInv (RobotSimulator.init k) := by
  constructor
  · show (20:ℚ) ≤ ((randint 70 100 k : ℕ) : ℚ)
    have h : (70:ℚ) ≤ ((randint 70 100 k : ℕ) : ℚ) := by
      exact_mod_cast le_randint 70 100 k
    linarith
  · show ((randint 70 100 k : ℕ) : ℚ) ≤ 100
    exact_mod_cast randint_le k (by norm_num : 70 ≤ 100)

/-- The post-call `_battery_level` of `generate_telemetry`, unfolded. -/
theorem generate_battery_eq (s : RobotState) (r : Rand) :
    (RobotSimulator.generate_telemetry s r).1.battery =
      (if s.running && (s.status == .working) then
        max RobotSimulator.BATTERY_MIN (s.battery - uniform 0 (1/2) r.drainU)
      else s.battery) := rfl

/-- The `battery` entry of the generated dict, unfolded. -/
theorem generate_sample_battery_eq (s : RobotState) (r : Rand) :
    (RobotSimulator.generate_telemetry s r).2.battery =
      pyInt ((RobotSimulator.generate_telemetry s r).1.battery) := rfl

theorem batteryInv_gen {s : RobotState} {r : Rand} (hs : BatteryInv s)
    (h0 : 0 ≤ r.drainU) : BatteryInv (RobotSimulator.generate_telemetry s r).1 := by
  obtain ⟨h1, h2⟩ := hs
  have hd : 0 ≤ uniform 0 (1/2) r.drainU := by unfold uniform; nlinarith
  unfold BatteryInv
  rw [generate_battery_eq]
  split
  · constructor
    · exact le_max_left _ _
    · exact max_le (by norm_num [RobotSimulator.BATTERY_MIN]) (by linarith)
  · exact ⟨h1, h2⟩

theorem batteryInv_runOps {s : RobotState} (ops : List Op) (hops : ValidOps ops)
    (hs : BatteryInv s) : BatteryInv (runOps s ops) := by
  induction ops generalizing s with
  | nil => exact hs
  | cons op ops ih =>
    have hop : op.Valid := hops op (List.mem_cons_self op ops)
    have hops2 : ValidOps ops := fun o ho => hops o (List.mem_cons_of_mem op ho)
    refine ih hops2 ?_
    cases op with
    | start => exact hs
    | stop => exact hs
    | reset k => exact batteryInv_init k
    | gen r => exact batteryInv_gen hs (show r.Valid from hop).2.2.1

/-- The bounds of every generated sample, for any state satisfying the
battery invariant. -/
theorem generate_bounds {s : RobotState} {r : Rand} (hb : BatteryInv s) (hr : r.Valid) :
    0 ≤ (RobotSimulator.generate_telemetry s r).2.battery ∧
    (RobotSimulator.generate_telemetry s r).2.battery ≤ 100 ∧
    (RobotSimulator.generate_telemetry s r).2.motor_rpm ≤ 1800 ∧
    tempRange s.status (RobotSimulator.generate_telemetry s r).2.temperature := by
  obtain ⟨ht0, ht1, hd0, hd1, _⟩ := hr
  obtain ⟨hg1, hg2⟩ := batteryInv_gen hb hd0
  refine ⟨?_, ?_, ?_, ?_⟩
  · rw [generate_sample_battery_eq]
    exact le_pyInt (by push_cast; linarith) (by norm_num)
  · rw [generate_sample_battery_eq]
    have h := pyInt_le (n := 100) (by push_cast; linarith)
    exact_mod_cast h
  · obtain ⟨running, status, battery⟩ := s
    cases status with
    | idle =>
      show randint RobotSimulator.RPM_MIN 1000 r.rpmK ≤ 1800
      exact le_trans (randint_le r.rpmK (by norm_num [RobotSimulator.RPM_MIN]))
        (by norm_num)
    | working =>
      show randint 1200 RobotSimulator.RPM_MAX r.rpmK ≤ 1800
      exact randint_le r.rpmK (by norm_num [RobotSimulator.RPM_MAX])
    | error =>
      show randint 0 500 r.rpmK ≤ 1800
      exact le_trans (randint_le r.rpmK (by norm_num)) (by norm_num)
  · obtain ⟨running, status, battery⟩ := s
    cases status with
    | idle =>
      show 35 ≤ round1 (uniform RobotSimulator.TEMP_MIN 42 r.tempU) ∧
        round1 (uniform RobotSimulator.TEMP_MIN 42 r.tempU) ≤ 42
      unfold RobotSimulator.TEMP_MIN
      constructor
      · have h1 : (35:ℚ) ≤ uniform 35 42 r.tempU := le_uniform (by norm_num) ht0
        have h := le_round1 (n := 35) (by push_cast; linarith)
        exact_mod_cast h
      · have h1 : uniform 35 42 r.tempU ≤ 42 := uniform_le (by norm_num) ht0 ht1
        have h := round1_le (n := 42) (by push_cast; linarith)
        exact_mod_cast h
    | working =>
      show 40 ≤ round1 (uniform 40 RobotSimulator.TEMP_MAX r.tempU) ∧
        round1 (uniform 40 RobotSimulator.TEMP_MAX r.tempU) ≤ 55
      unfold RobotSimulator.TEMP_MAX
      constructor
      · have h1 : (40:ℚ) ≤ uniform 40 55 r.tempU := le_uniform (by norm_num) ht0
        have h := le_round1 (n := 40) (by push_cast; linarith)
        exact_mod_cast h
      · have h1 : uniform 40 55 r.tempU ≤ 55 := uniform_le (by norm_num) ht0 ht1
        have h := round1_le (n := 55) (by push_cast; linarith)
        exact_mod_cast h
    | error =>
      show 50 ≤ round1 (uniform 50 60 r.tempU) ∧ round1 (uniform 50 60 r.tempU) ≤ 60
      constructor
      · have h1 : (50:ℚ) ≤ uniform 50 60 r.tempU := le_uniform (by norm_num) ht0
        have h := le_round1 (n := 50) (by push_cast; linarith)
        exact_mod_cast h
      · have h1 : uniform 50 60 r.tempU ≤ 60 := uniform_le (by norm_num) ht0 ht1
        have h := round1_le (n := 60) (by push_cast; linarith)
        exact_mod_cast h

/-! ### The claims -/

/-- C1: for every sequence of operations (start, stop, reset,
generate_telemetry in any order) from the initial state, every sample
returned by `generate_telemetry` satisfies `0 ≤ battery ≤ 100`,
`0 ≤ motor_rpm ≤ 1800` (the lower bound is structural, `motor_rpm : ℕ`),
and its temperature lies within the declared range for the mode held when
generation began: `[35, 42]` for idle, `[40, 55]` for working, `[50, 60]`
for error. -/
theorem C1 (k : ℕ) (ops : List Op) (h : ValidOps ops) (r : Rand) (hr : r.Valid) :
    0 ≤ (RobotSimulator.generate_telemetry (runOps (RobotSimulator.init k) ops) r).2.battery ∧
    (RobotSimulator.generate_telemetry (runOps (RobotSimulator.init k) ops) r).2.battery ≤ 100 ∧
    0 ≤ (RobotSimulator.generate_telemetry (runOps (RobotSimulator.init k) ops) r).2.motor_rpm ∧
    (RobotSimulator.generate_telemetry (runOps (RobotSimulator.init k) ops) r).2.motor_rpm ≤ 1800 ∧
    tempRange (runOps (RobotSimulator.init k) ops).status
      (RobotSimulator.generate_telemetry (runOps (RobotSimulator.init k) ops) r).2.temperature := by
  obtain ⟨g1, g2, g3, g4⟩ :=
    generate_bounds (batteryInv_runOps ops h (batteryInv_init k)) hr
  exact ⟨g1, g2, Nat.zero_le _, g3, g4⟩

/-- Witness for C1: the empty operation sequence and a concrete draw. -/
theorem C1_witness :
    ValidOps [] ∧ (Rand.mk 0 0 0 1 0 1).Valid ∧
    (0 ≤ (RobotSimulator.generate_telemetry (runOps (RobotSimulator.init 0) [])
        (Rand.mk 0 0 0 1 0 1)).2.battery ∧
      (RobotSimulator.generate_telemetry (runOps (RobotSimulator.init 0) [])
        (Rand.mk 0 0 0 1 0 1)).2.battery ≤ 100 ∧
      0 ≤ (RobotSimulator.generate_telemetry (runOps (RobotSimulator.init 0) [])
        (Rand.mk 0 0 0 1 0 1)).2.motor_rpm ∧
      (RobotSimulator.generate_telemetry (runOps (RobotSimulator.init 0) [])
        (Rand.mk 0 0 0 1 0 1)).2.motor_rpm ≤ 1800 ∧
      tempRange (runOps (RobotSimulator.init 0) []).status
        (RobotSimulator.generate_telemetry (runOps (RobotSimulator.init 0) [])
          (Rand.mk 0 0 0 1 0 1)).2.temperature) :=
  ⟨by decide, by decide, C1 0 [] (by decide) (Rand.mk 0 0 0 1 0 1) (by decide)⟩

/-- C2: for every prior state, `reset()` leaves the state with
`running = true`, `mode = idle` and a battery level in `[70, 100]`, and
returns a result with `success = true`. -/
theorem C2 (s : RobotState) (k : ℕ) :
    (RobotSimulator.reset s k).1.running = true ∧
    (RobotSimulator.reset s k).1.status = Mode.idle ∧
    70 ≤ (RobotSimulator.reset s k).1.battery ∧
    (RobotSimulator.reset s k).1.battery ≤ 100 ∧
    (RobotSimulator.reset s k).2.success = true := by
  refine ⟨rfl, rfl, ?_, ?_, rfl⟩
  · show (70:ℚ) ≤ ((randint 70 100 k : ℕ) : ℚ)
    exact_mod_cast le_randint 70 100 k
  · show ((randint 70 100 k : ℕ) : ℚ) ≤ 100
    exact_mod_cast randint_le k (by norm_num : 70 ≤ 100)

/-- C10: `generate_telemetry` computes temperature and RPM from the mode
held at entry but applies the mode drift afterwards and reports the
post-drift mode in the sample's `status`; on a run where the drift flips an
idle robot to error, the returned sample reports `status = error` with a
temperature from the idle range (below 50) and an RPM above 500. -/
theorem C10 :
    (∀ (s : RobotState) (r : Rand),
        (RobotSimulator.generate_telemetry s r).2.status =
          (RobotSimulator.generate_telemetry s r).1.status) ∧
    ((RobotSimulator.generate_telemetry (RobotSimulator.init 10)
        (Rand.mk 0 0 0 0 4 1)).2.status = Mode.error ∧
      (RobotSimulator.generate_telemetry (RobotSimulator.init 10)
        (Rand.mk 0 0 0 0 4 1)).2.temperature < 50 ∧
      500 < (RobotSimulator.generate_telemetry (RobotSimulator.init 10)
        (Rand.mk 0 0 0 0 4 1)).2.motor_rpm) := by
  have hgen : RobotSimulator.generate_telemetry (RobotSimulator.init 10)
      (Rand.mk 0 0 0 0 4 1) =
      ({ running := true, status := .error, battery := 80 },
       { temperature := 35, battery := 80, motor_rpm := 800, status := .error }) := by
    norm_num [RobotSimulator.generate_telemetry, RobotSimulator.init, randint, pyInt,
      uniform, round1, STATUS_CHOICES, RobotSimulator.TEMP_MIN, RobotSimulator.TEMP_MAX,
      RobotSimulator.BATTERY_MIN, RobotSimulator.RPM_MIN, RobotSimulator.RPM_MAX,
      beq_iff_eq]
  refine ⟨fun s r => rfl, ?_, ?_, ?_⟩ <;> rw [hgen] <;> norm_num

/-- `check_alerts` unfolded into its five independent rule segments, in
emission order: the two temperature rules, the two battery rules, the
status rule. -/
theorem check_alerts_eq (d : Sample) :
    check_alerts d =
      (if 50 < d.temperature then
        [⟨.warning, .temperature,
          "High temperature: " ++ toString d.temperature ++ "°C",
          some 50, some (.num d.temperature)⟩] else []) ++
      (if 55 < d.temperature then
        [⟨.critical, .temperature,
          "Critical temperature: " ++ toString d.temperature ++ "°C",
          some 55, some (.num d.temperature)⟩] else []) ++
      (if d.battery < 20 then
        [⟨.warning, .battery,
          "Low battery: " ++ toString d.battery ++ "%",
          some 20, some (.num (d.battery : ℚ))⟩] else []) ++
      (if d.battery < 10 then
        [⟨.critical, .battery,
          "Critical battery: " ++ toString d.battery ++ "%",
          some 10, some (.num (d.battery : ℚ))⟩] else []) ++
      (if d.status = .error then
        [⟨.critical, .status, "Robot in ERROR state", none, some (.str ("error"))⟩]
       else []) := by
  simp only [check_alerts]
  split_ifs <;> simp

/-- C3: the alert evaluator emits exactly the alerts whose conditions
hold, evaluated independently, in the order temperature rules, battery
rules, status rule; and the sample with temperature 56, battery 50,
motor_rpm 100, status working yields exactly the warning/temperature
alert at threshold 50 followed by the critical/temperature alert at
threshold 55. -/
theorem C3 :
    (∀ d : Sample, check_alerts d =
      (if 50 < d.temperature then
        [⟨.warning, .temperature,
          "High temperature: " ++ toString d.temperature ++ "°C",
          some 50, some (.num d.temperature)⟩] else []) ++
      (if 55 < d.temperature then
        [⟨.critical, .temperature,
          "Critical temperature: " ++ toString d.temperature ++ "°C",
          some 55, some (.num d.temperature)⟩] else []) ++
      (if d.battery < 20 then
        [⟨.warning, .battery,
          "Low battery: " ++ toString d.battery ++ "%",
          some 20, some (.num (d.battery : ℚ))⟩] else []) ++
      (if d.battery < 10 then
        [⟨.critical, .battery,
          "Critical battery: " ++ toString d.battery ++ "%",
          some 10, some (.num (d.battery : ℚ))⟩] else []) ++
      (if d.status = .error then
        [⟨.critical, .status, "Robot in ERROR state", none, some (.str ("error"))⟩]
       else [])) ∧
    check_alerts ⟨56, 50, 100, .working⟩ =
      [⟨.warning, .temperature, "High temperature: 56°C",
        some 50, some (.num 56)⟩,
       ⟨.critical, .temperature, "Critical temperature: 56°C",
        some 55, some (.num 56)⟩] :=
  ⟨check_alerts_eq, by decide⟩

/-- C5 counterexample: on a status-error sample the emitted status alert
carries a `value` key (the string error), so the claim that both the
threshold and the value field are omitted from the status alert is false. -/
theorem C5_counterexample :
    check_alerts ⟨40, 50, 100, .error⟩ =
      [⟨.critical, .status, "Robot in ERROR state", none, some (.str ("error"))⟩] ∧
    ¬ (∀ a ∈ check_alerts ⟨40, 50, 100, .error⟩,
        a.category = Category.status → a.threshold = none ∧ a.value = none) :=
  ⟨by decide, by decide⟩

/-- C5 (amended): every broadcast alert has exactly the fields
{type, category, message, threshold, value}, except the status-category
alert, in which the threshold field is omitted while the value field is
present, set to the string error. -/
theorem C5_amended (d : Sample) (a : Alert) (h : a ∈ check_alerts d) :
    (a.category ≠ Category.status → a.threshold.isSome ∧ a.value.isSome) ∧
    (a.category = Category.status →
      a.threshold = none ∧ a.value = some (JVal.str ("error"))) := by
  rw [check_alerts_eq] at h
  simp only [List.mem_append] at h
  rcases h with ((((h | h) | h) | h) | h) <;> split at h <;>
    simp only [List.mem_singleton, List.not_mem_nil] at h <;> subst h <;> simp

/-- Witness for C5 (amended) at a concrete sample and alert. -/
theorem C5_witness :
    (⟨.warning, .temperature, "High temperature: 56°C",
        some 50, some (.num 56)⟩ : Alert) ∈ check_alerts ⟨56, 50, 100, .working⟩ ∧
    (((⟨.warning, .temperature, "High temperature: 56°C",
        some 50, some (.num 56)⟩ : Alert).category ≠ Category.status →
      (⟨.warning, .temperature, "High temperature: 56°C",
        some 50, some (.num 56)⟩ : Alert).threshold.isSome ∧
      (⟨.warning, .temperature, "High temperature: 56°C",
        some 50, some (.num 56)⟩ : Alert).value.isSome) ∧
     ((⟨.warning, .temperature, "High temperature: 56°C",
        some 50, some (.num 56)⟩ : Alert).category = Category.status →
      (⟨.warning, .temperature, "High temperature: 56°C",
        some 50, some (.num 56)⟩ : Alert).threshold = none ∧
      (⟨.warning, .temperature, "High temperature: 56°C",
        some 50, some (.num 56)⟩ : Alert).value = some (JVal.str ("error")))) :=
  ⟨by decide, C5_amended ⟨56, 50, 100, .working⟩ _ (by decide)⟩

/-- C4: executing any command string outside start/stop/reset is rejected
with `success = false` and an explanatory message, at the simulator layer
and at the service layer, and the simulator state is returned unchanged. -/
theorem C4 (s : RobotState) (c : String) (k : ℕ)
    (h : c ∉ TelemetryService.valid_commands) :
    RobotSimulator.execute_command s c k =
      (s, ⟨false, "Unknown command: " ++ c⟩) ∧
    TelemetryService.execute_command s c k =
      (s, ⟨false, "Invalid command. Valid commands: " ++
        String.intercalate (", ") TelemetryService.valid_commands⟩) := by
  have hmem := h
  simp only [TelemetryService.valid_commands, List.mem_cons, List.not_mem_nil,
    or_false, not_or] at h
  obtain ⟨h1, h2, h3⟩ := h
  constructor
  · unfold RobotSimulator.execute_command
    rw [if_neg h1, if_neg h2, if_neg h3]
  · unfold TelemetryService.execute_command
    rw [if_neg hmem]

/-- Witness for C4 at the unrecognized command string launch. -/
theorem C4_witness :
    ("launch") ∉ TelemetryService.valid_commands ∧
    (RobotSimulator.execute_command ⟨true, Mode.idle, 80⟩ ("launch") 0 =
        (⟨true, Mode.idle, 80⟩, ⟨false, "Unknown command: launch"⟩) ∧
      TelemetryService.execute_command ⟨true, Mode.idle, 80⟩ ("launch") 0 =
        (⟨true, Mode.idle, 80⟩,
          ⟨false, "Invalid command. Valid commands: start, stop, reset"⟩)) :=
  ⟨by decide, C4 ⟨true, Mode.idle, 80⟩ ("launch") 0 (by decide)⟩

/-- C6: one telemetry publish emits both to the telemetry room and to the
set of all connected clients, so a client that is connected but never
subscribed to any topic is still among the recipients of every telemetry
sample and of every alert; telemetry-room subscribers are reached too. -/
theorem C6 (h : Hub) (c : ℕ) (hc : c ∈ h.connected_clients) :
    broadcast_telemetry h = [EmitTarget.room ("telemetry"), EmitTarget.all] ∧
    c ∈ telemetryRecipients h ∧
    c ∈ alertRecipients h ∧
    ∀ x ∈ subscribersOf h ("telemetry"), x ∈ telemetryRecipients h := by
  have hne : h.connected_clients ≠ [] := List.ne_nil_of_mem hc
  have hbt : broadcast_telemetry h =
      [EmitTarget.room ("telemetry"), EmitTarget.all] := by
    unfold broadcast_telemetry
    rw [if_neg hne]
  have htr : telemetryRecipients h =
      subscribersOf h ("telemetry") ++ (h.connected_clients ++ []) := by
    unfold telemetryRecipients
    rw [hbt]
    rfl
  refine ⟨hbt, ?_, ?_, ?_⟩
  · rw [htr]
    exact List.mem_append_right _ (List.mem_append_left _ hc)
  · show c ∈ h.connected_clients ++ []
    exact List.mem_append_left _ hc
  · intro x hx
    rw [htr]
    exact List.mem_append_left _ hx

/-- Witness for C6: a hub with one connected, never-subscribed client. -/
theorem C6_witness :
    7 ∈ (Hub.mk [7] []).connected_clients ∧
    (broadcast_telemetry (Hub.mk [7] []) =
        [EmitTarget.room ("telemetry"), EmitTarget.all] ∧
      7 ∈ telemetryRecipients (Hub.mk [7] []) ∧
      7 ∈ alertRecipients (Hub.mk [7] []) ∧
      ∀ x ∈ subscribersOf (Hub.mk [7] []) ("telemetry"),
        x ∈ telemetryRecipients (Hub.mk [7] [])) :=
  ⟨by decide, C6 (Hub.mk [7] []) 7 (by decide)⟩

theorem telemetry_generator_run_append (xs ys : List (Except String Sample)) :
    telemetry_generator_run (xs ++ ys) =
      telemetry_generator_run xs ++ telemetry_generator_run ys := by
  induction xs with
  | nil => rfl
  | cons x xs ih =>
    simp only [List.cons_append, telemetry_generator_run, List.append_eq, ih]

theorem telemetry_generator_run_length (ts : List (Except String Sample)) :
    (telemetry_generator_run ts).length = ts.length := by
  induction ts with
  | nil => rfl
  | cons t ts ih => simp only [telemetry_generator_run, List.length_cons, ih]

/-- C7: a tick on which generating or saving raises is logged as a failure
and swallowed, and the generation loop continues with the next tick: the
ticks after the failure are still processed, and no failure shortens or
terminates the run. -/
theorem C7 (p q : List (Except String Sample)) (e : String) :
    telemetry_generator_run (p ++ Except.error e :: q) =
      telemetry_generator_run p ++
        TickResult.error_logged e :: telemetry_generator_run q ∧
    (telemetry_generator_run (p ++ Except.error e :: q)).length =
      p.length + 1 + q.length := by
  constructor
  · rw [telemetry_generator_run_append]
    rfl
  · rw [telemetry_generator_run_length]
    simp only [List.length_append, List.length_cons]
    omega

/-- C8 (what the code actually does): `run_app` starts the generation loop
twice — once inside `create_app` and once itself — so two identical
`telemetry_generator` threads tick the shared simulator concurrently, and
no lock exists anywhere in the source to serialize them. -/
theorem C8_two_generator_threads :
    run_app_background_threads.length = 2 ∧
    run_app_background_threads =
      [⟨"telemetry_generator", true⟩, ⟨"telemetry_generator", true⟩] :=
  ⟨rfl, rfl⟩

/-- C9: every reachable simulator state keeps the internal battery level at
least 20; consequently every generated sample has battery ≥ 20 and the
battery-warning and battery-critical alert branches never fire on samples
produced by `generate_telemetry`. -/
theorem C9 (k : ℕ) (ops : List Op) (h : ValidOps ops) (r : Rand) (hr : r.Valid) :
    20 ≤ (runOps (RobotSimulator.init k) ops).battery ∧
    20 ≤ (RobotSimulator.generate_telemetry
        (runOps (RobotSimulator.init k) ops) r).2.battery ∧
    ∀ a ∈ check_alerts (RobotSimulator.generate_telemetry
        (runOps (RobotSimulator.init k) ops) r).2,
      a.category ≠ Category.battery := by
  obtain ⟨h1, h2⟩ := batteryInv_runOps ops h (batteryInv_init k)
  obtain ⟨hg1, hg2⟩ := batteryInv_gen ⟨h1, h2⟩ hr.2.2.1
  have hsb : (20:ℤ) ≤ (RobotSimulator.generate_telemetry
      (runOps (RobotSimulator.init k) ops) r).2.battery := by
    rw [generate_sample_battery_eq]
    exact le_pyInt (by push_cast; linarith) (by norm_num)
  refine ⟨h1, hsb, ?_⟩
  intro a ha
  rw [check_alerts_eq, if_neg (not_lt.mpr hsb),
    if_neg (not_lt.mpr (le_trans (by norm_num : (10:ℤ) ≤ 20) hsb))] at ha
  simp only [List.append_nil, List.mem_append] at ha
  rcases ha with ((ha | ha) | ha) <;> split at ha <;>
    simp only [List.mem_singleton, List.not_mem_nil] at ha <;> subst ha <;> simp

/-- Witness for C9: the empty operation sequence and a concrete draw. -/
theorem C9_witness :
    ValidOps [] ∧ (Rand.mk 0 0 0 1 0 1).Valid ∧
    (20 ≤ (runOps (RobotSimulator.init 0) []).battery ∧
      20 ≤ (RobotSimulator.generate_telemetry
          (runOps (RobotSimulator.init 0) []) (Rand.mk 0 0 0 1 0 1)).2.battery ∧
      ∀ a ∈ check_alerts (RobotSimulator.generate_telemetry
          (runOps (RobotSimulator.init 0) []) (Rand.mk 0 0 0 1 0 1)).2,
        a.category ≠ Category.battery) :=
  ⟨by decide, by decide, C9 0 [] (by decide) (Rand.mk 0 0 0 1 0 1) (by decide)⟩

end AutoCRM
